import Mathlib

/-!
Verification development for the product catalog repository.

Server side (src/backend/server.js): a shallow embedding of the Express
route handlers over an explicit server state.  Mongoose documents are
modelled as a structure of concrete fields; generated object ids are
modelled as natural numbers handed out from a counter; the uploads
directory is modelled as a list of file names, together with a set of
file names whose deletion raises (fs.unlinkSync throwing).  Mongoose
findByIdAndUpdate strips keys whose value is undefined from the update
object, so an update with an undefined field leaves that field alone.

Client side (src/client-ui/js/app.js): the filter / sort / paginate
pipeline.  The fetched products are JavaScript objects: reading a field
that the backend never set yields undefined, modelled with Option.
Methods invoked on undefined raise TypeError, modelled with Except.
Array.prototype.sort is modelled as a stable insertion sort in which an
element x stays before y exactly when the comparator result on (x, y) is
not greater than zero; a NaN comparator result (arithmetic on undefined)
therefore leaves the relative order unchanged, matching the engines.
-/

/-- A product document as stored by the backend (see the mongoose schema
in src/backend/server.js, lines 26 to 35). -/
structure Doc where
  id : Nat
  name : String
  description : String
  price : Rat
  category : String
  image : String
  stock : Rat
  rating : Rat
  createdAt : Nat
deriving Repr, DecidableEq

/-- The mutable state of the backend: the product collection, the next
generated id, the upload directory contents, and the set of file names
whose unlink raises. -/
structure ServerState where
  store : List Doc
  nextId : Nat
  files : List String
  undeletable : List String
deriving Repr, DecidableEq

/-- Request body fields of a multipart POST or PUT, after parsing; an
absent field is none (undefined in JavaScript). -/
structure ReqBody where
  name : Option String
  description : Option String
  price : Option Rat
  category : Option String
  stock : Option Rat
  rating : Option Rat
deriving Repr, DecidableEq

/-- Product.findById: the first document whose id matches. -/
def findById (id : Nat) (store : List Doc) : Option Doc :=
  store.find? (fun d => d.id == id)

/-- Mongoose required check for the schema: name, description, price,
category must be present, string fields also non-empty. -/
def requiredOk (b : ReqBody) : Bool :=
  (match b.name with | some s => decide (s ≠ "") | none => false) &&
  (match b.description with | some s => decide (s ≠ "") | none => false) &&
  b.price.isSome &&
  (match b.category with | some s => decide (s ≠ "") | none => false)

/-- POST /api/products (server.js lines 103 to 126).  The result triple
is the HTTP status, the response document if any, and the new state.
When a file is attached, multer has already written it to uploads before
the handler body runs.  A missing file yields 400 before any document is
built; a validation failure in save is caught and yields 400. -/
def createProduct (now : Nat) (file : Option String) (b : ReqBody) (s : ServerState) :
    Nat × Option Doc × ServerState :=
  match file with
  | none => (400, none, s)
  | some fname =>
    let s1 : ServerState := { s with files := fname :: s.files }
    if requiredOk b then
      let d : Doc :=
        { id := s1.nextId,
          name := b.name.getD "",
          description := b.description.getD "",
          price := b.price.getD 0,
          category := b.category.getD "",
          image := fname,
          stock := b.stock.getD 0,
          rating := b.rating.getD 0,
          createdAt := now }
      (201, some d, { s1 with store := s1.store ++ [d], nextId := s1.nextId + 1 })
    else (400, none, s1)

/-- The update document mongoose applies: keys whose value is undefined
are stripped, so an absent body field keeps the stored value.  The image
key is present only when a new file was uploaded.  The update object
never contains id or createdAt. -/
def applyUpdate (d : Doc) (b : ReqBody) (img : Option String) : Doc :=
  { d with
    name := b.name.getD d.name,
    description := b.description.getD d.description,
    price := b.price.getD d.price,
    category := b.category.getD d.category,
    stock := b.stock.getD d.stock,
    rating := b.rating.getD d.rating,
    image := img.getD d.image }

/-- Product.findByIdAndUpdate with the new document returned: 404 when
the id resolves to nothing, otherwise the stored document is replaced in
place and returned. -/
def findByIdAndUpdate (id : Nat) (b : ReqBody) (img : Option String) (s : ServerState) :
    Nat × Option Doc × ServerState :=
  match findById id s.store with
  | none => (404, none, s)
  | some old =>
    let d := applyUpdate old b img
    (200, some d, { s with store := s.store.map (fun x => if x.id = id then d else x) })

/-- PUT /api/products/:id (server.js lines 129 to 162).  When a new file
is attached, multer stores it first; the handler then looks the document
up, and if the old image name is truthy and the file exists on disk it
unlinks it.  An unlink that raises is caught by the surrounding catch and
the handler answers 400 without ever reaching findByIdAndUpdate. -/
def updateProduct (id : Nat) (file : Option String) (b : ReqBody) (s : ServerState) :
    Nat × Option Doc × ServerState :=
  match file with
  | none => findByIdAndUpdate id b none s
  | some fname =>
    let s1 : ServerState := { s with files := fname :: s.files }
    match findById id s1.store with
    | none => findByIdAndUpdate id b (some fname) s1
    | some old =>
      if old.image ≠ "" ∧ old.image ∈ s1.files then
        if old.image ∈ s1.undeletable then
          (400, none, s1)
        else
          findByIdAndUpdate id b (some fname) { s1 with files := s1.files.erase old.image }
      else
        findByIdAndUpdate id b (some fname) s1

/-- GET /api/products/:id (server.js lines 80 to 90).  The dbError
parameter models the store raising inside the try block (connection or
query failure); the catch answers 500.  Otherwise a missing document
answers 404 and a found one answers 200 with the document. -/
def getProduct (dbError : Option String) (id : Nat) (s : ServerState) : Nat × Option Doc :=
  match dbError with
  | some _ => (500, none)
  | none =>
    match findById id s.store with
    | none => (404, none)
    | some p => (200, some p)

/-- GET /api/products: Product.find() returns every document. -/
def listProducts (s : ServerState) : List Doc :=
  s.store

/-- The eight sample documents inserted by seedDatabase (server.js lines
199 to 272), with ids generated from the insertion counter and createdAt
defaulted to the insertion time. -/
def sampleProducts (baseId now : Nat) : List Doc :=
  [ { id := baseId, name := "Wireless Headphones",
      description := "High-quality wireless headphones with noise cancellation.",
      price := 149.99, category := "electronics", image := "headphones.jpg",
      stock := 50, rating := 4.5, createdAt := now },
    { id := baseId + 1, name := "Smart Watch",
      description := "Track your fitness and stay connected with this sleek smart watch.",
      price := 199.99, category := "electronics", image := "smartwatch.jpg",
      stock := 30, rating := 4.2, createdAt := now },
    { id := baseId + 2, name := "Cotton T-Shirt",
      description := "Comfortable 100% cotton t-shirt available in multiple colors.",
      price := 19.99, category := "clothing", image := "tshirt.jpg",
      stock := 100, rating := 4.0, createdAt := now },
    { id := baseId + 3, name := "Denim Jeans",
      description := "Classic denim jeans with a modern fit.",
      price := 59.99, category := "clothing", image := "jeans.jpg",
      stock := 75, rating := 4.3, createdAt := now },
    { id := baseId + 4, name := "Coffee Maker",
      description := "Programmable coffee maker for the perfect morning brew.",
      price := 89.99, category := "home", image := "coffeemaker.jpg",
      stock := 25, rating := 4.7, createdAt := now },
    { id := baseId + 5, name := "Blender",
      description := "High-powered blender for smoothies and more.",
      price := 79.99, category := "home", image := "blender.jpg",
      stock := 20, rating := 4.1, createdAt := now },
    { id := baseId + 6, name := "Wireless Earbuds",
      description := "Compact wireless earbuds with amazing sound quality.",
      price := 129.99, category := "electronics", image := "earbuds.jpg",
      stock := 40, rating := 4.6, createdAt := now },
    { id := baseId + 7, name := "Running Shoes",
      description := "Lightweight and comfortable running shoes for all terrains.",
      price := 89.99, category := "clothing", image := "shoes.jpg",
      stock := 60, rating := 4.4, createdAt := now } ]

/-- seedDatabase (server.js lines 189 to 280): when countDocuments is
positive the function returns at once; otherwise insertMany adds the
eight sample documents.  No file is ever written to uploads. -/
def seedDatabase (now : Nat) (s : ServerState) : ServerState :=
  if 0 < s.store.length then s
  else { s with store := s.store ++ sampleProducts s.nextId now, nextId := s.nextId + 8 }

/-- A product as the browser sees it after JSON parsing: field access on
a key the backend never set yields undefined, modelled as none.  The
client code reads both the schema fields and the fields console, title
and currentPrice. -/
structure JsProduct where
  name : Option String
  title : Option String
  description : Option String
  price : Option Rat
  currentPrice : Option Rat
  category : Option String
  console : Option String
  image : Option String
deriving Repr, DecidableEq

/-- The JSON serialization of a backend document, as the client receives
it: the schema fields are present, console, title and currentPrice are
absent. -/
def Doc.toJs (d : Doc) : JsProduct :=
  { name := some d.name,
    title := none,
    description := some d.description,
    price := some d.price,
    currentPrice := none,
    category := some d.category,
    console := none,
    image := some d.image }

/-- String.prototype.toLowerCase, written by structural recursion over
the character list so that it evaluates inside the kernel. -/
def toLowerStr (s : String) : String :=
  String.mk (s.toList.map Char.toLower)

/-- Decides whether the pattern occurs at the head of the text. -/
def subAt : List Char → List Char → Bool
  | [], _ => true
  | _ :: _, [] => false
  | c :: cs, d :: ds => (c = d) && subAt cs ds

/-- Decides whether the pattern occurs anywhere in the text. -/
def includesChars (pat : List Char) : List Char → Bool
  | [] => subAt pat []
  | d :: ds => subAt pat (d :: ds) || includesChars pat ds

/-- String.prototype.includes. -/
def jsIncludes (s pat : String) : Bool :=
  includesChars pat.toList s.toList

/-- The category predicate of applyFilters (app.js line 97): pass when no
category is selected, else strict equality between the selected value and
the console field of the product; comparing a string with undefined is
false. -/
def matchesCategory (categoryValue : String) (p : JsProduct) : Bool :=
  decide (categoryValue = "") || decide (p.console = some categoryValue)

/-- The search predicate of applyFilters (app.js lines 98 to 100), with
searchValue already lowercased: pass when the search text is empty, else
lowercase the title and test inclusion, falling back to the description.
Calling toLowerCase on an absent field raises TypeError. -/
def matchesSearch (searchValue : String) (p : JsProduct) : Except String Bool :=
  if searchValue = "" then Except.ok true
  else
    match p.title with
    | none => Except.error "TypeError"
    | some t =>
      if jsIncludes (toLowerStr t) searchValue then Except.ok true
      else
        match p.description with
        | none => Except.error "TypeError"
        | some d => Except.ok (jsIncludes (toLowerStr d) searchValue)

/-- allProducts.filter of applyFilters (app.js lines 96 to 103): each
element evaluates both predicates and is kept when both hold; a raising
predicate aborts the whole filter. -/
def filterProducts (cv sv : String) : List JsProduct → Except String (List JsProduct)
  | [] => Except.ok []
  | p :: ps =>
    match matchesSearch sv p with
    | Except.error e => Except.error e
    | Except.ok ms =>
      match filterProducts cv sv ps with
      | Except.error e => Except.error e
      | Except.ok rest =>
        if matchesCategory cv p && ms then Except.ok (p :: rest) else Except.ok rest

/-- JavaScript subtraction where either operand may be undefined: the
result is then NaN, modelled as none. -/
def numSub (a b : Option Rat) : Option Rat :=
  match a, b with
  | some x, some y => some (x - y)
  | _, _ => none

/-- Whether a comparator result keeps the first element before the
second: the pair is swapped only when the result is greater than zero, so
a NaN result keeps the original order. -/
def jsNumLe (c : Option Rat) : Bool :=
  match c with
  | some v => decide (v ≤ 0)
  | none => true

/-- Comparator of the price ascending sort (app.js line 108). -/
def lePriceAsc (a b : JsProduct) : Bool :=
  jsNumLe (numSub a.currentPrice b.currentPrice)

/-- Comparator of the price descending sort (app.js line 111). -/
def lePriceDesc (a b : JsProduct) : Bool :=
  jsNumLe (numSub b.currentPrice a.currentPrice)

/-- Stable insertion into a sorted prefix under a boolean keep-before
test. -/
def insertSorted (le : JsProduct → JsProduct → Bool) (x : JsProduct) :
    List JsProduct → List JsProduct
  | [] => [x]
  | y :: ys => if le x y then x :: y :: ys else y :: insertSorted le x ys

/-- Stable sort under a boolean keep-before test, modelling
Array.prototype.sort with a total comparator. -/
def sortPure (le : JsProduct → JsProduct → Bool) : List JsProduct → List JsProduct
  | [] => []
  | x :: xs => insertSorted le x (sortPure le xs)

/-- String.prototype.localeCompare, shallowly modelled as lexicographic
comparison; the receiver being undefined raises TypeError, while an
undefined argument is coerced to the string undefined. -/
def localeCompare (a b : Option String) : Except String Rat :=
  match a with
  | none => Except.error "TypeError"
  | some x =>
    let y := match b with | some yv => yv | none => "undefined"
    if x < y then Except.ok (-1) else if y < x then Except.ok 1 else Except.ok 0

/-- Comparator of the name sorts (app.js lines 114 and 117): localeCompare
on the title fields, in the given orientation. -/
def leName (asc : Bool) (a b : JsProduct) : Except String Bool :=
  match (if asc then localeCompare a.title b.title else localeCompare b.title a.title) with
  | Except.error e => Except.error e
  | Except.ok c => Except.ok (decide (c ≤ 0))

/-- Stable insertion under a comparator that may raise. -/
def insertSortedM (le : JsProduct → JsProduct → Except String Bool) (x : JsProduct) :
    List JsProduct → Except String (List JsProduct)
  | [] => Except.ok [x]
  | y :: ys =>
    match le x y with
    | Except.error e => Except.error e
    | Except.ok b =>
      if b then Except.ok (x :: y :: ys)
      else
        match insertSortedM le x ys with
        | Except.error e => Except.error e
        | Except.ok r => Except.ok (y :: r)

/-- Stable sort under a comparator that may raise. -/
def sortM (le : JsProduct → JsProduct → Except String Bool) :
    List JsProduct → Except String (List JsProduct)
  | [] => Except.ok []
  | x :: xs =>
    match sortM le xs with
    | Except.error e => Except.error e
    | Except.ok s => insertSortedM le x s

/-- The sort switch of applyFilters (app.js lines 106 to 119): price
sorts compare currentPrice values, name sorts call localeCompare on the
title fields, any other sort value leaves the order untouched. -/
def sortFiltered (sortValue : String) (l : List JsProduct) : Except String (List JsProduct) :=
  match sortValue with
  | "price_asc" => Except.ok (sortPure lePriceAsc l)
  | "price_desc" => Except.ok (sortPure lePriceDesc l)
  | "name_asc" => sortM (leName true) l
  | "name_desc" => sortM (leName false) l
  | _ => Except.ok l

/-- The values of the three filter controls; the search text is the raw
input, lowercased inside the recompute as in app.js line 92. -/
structure ClientFilters where
  categoryValue : String
  sortValue : String
  searchInput : String
deriving Repr, DecidableEq

/-- The recompute of filteredProducts performed by applyFilters: filter
by category and search, then sort. -/
def computeFiltered (f : ClientFilters) (all : List JsProduct) :
    Except String (List JsProduct) :=
  match filterProducts f.categoryValue (toLowerStr f.searchInput) all with
  | Except.error e => Except.error e
  | Except.ok fl => sortFiltered f.sortValue fl

/-- The productsPerPage constant (app.js line 9). -/
def productsPerPage : Nat := 8

/-- The slice rendered for a page (app.js lines 50 to 52): the window
from (page - 1) * 8 to page * 8. -/
def pageWindow (filtered : List JsProduct) (page : Nat) : List JsProduct :=
  List.take productsPerPage (List.drop ((page - 1) * productsPerPage) filtered)

/-- Math.ceil(filteredProducts.length / productsPerPage) as in app.js
line 130. -/
def totalPages (filtered : List JsProduct) : Nat :=
  (filtered.length + (productsPerPage - 1)) / productsPerPage

/-- All page windows in order, for pages 1 up to totalPages. -/
def allPages (filtered : List JsProduct) : List (List JsProduct) :=
  (List.range (totalPages filtered)).map (fun i => pageWindow filtered (i + 1))

/-- The mutable client state: the control values and the three global
variables allProducts, filteredProducts and currentPage. -/
structure ClientState where
  filters : ClientFilters
  allProducts : List JsProduct
  filteredProducts : List JsProduct
  currentPage : Nat
deriving Repr, DecidableEq

/-- The user interactions that reach the pipeline: a change of any filter
control, a click on a page number button, and the previous and next
buttons. -/
inductive ClientEvent where
  | filterChange (f : ClientFilters)
  | pageClick (i : Nat)
  | prevClick
  | nextClick
deriving Repr, DecidableEq

/-- One event handler dispatch.  A filter change runs applyFilters: when
the filter step raises, nothing was assigned; when the sort step raises,
filteredProducts already holds the freshly filtered array (the in-place
sort may additionally have permuted it) and currentPage is not reset; on
success currentPage is reset to 1.  A page number click sets currentPage
and re-renders from the existing filteredProducts; previous and next move
by one page inside the handler guards (app.js lines 140 to 169). -/
def clientStep (s : ClientState) (e : ClientEvent) : ClientState :=
  match e with
  | ClientEvent.filterChange f =>
    let s1 : ClientState := { s with filters := f }
    match filterProducts f.categoryValue (toLowerStr f.searchInput) s.allProducts with
    | Except.error _ => s1
    | Except.ok fl =>
      match sortFiltered f.sortValue fl with
      | Except.error _ => { s1 with filteredProducts := fl }
      | Except.ok sorted => { s1 with filteredProducts := sorted, currentPage := 1 }
  | ClientEvent.pageClick i => { s with currentPage := i }
  | ClientEvent.prevClick =>
    if 1 < s.currentPage then { s with currentPage := s.currentPage - 1 } else s
  | ClientEvent.nextClick =>
    if s.currentPage < totalPages s.filteredProducts then
      { s with currentPage := s.currentPage + 1 }
    else s

/-- The intended state invariant of the pipeline: filteredProducts is the
recompute under the current controls, and currentPage lies between 1 and
the page count, except that an empty result keeps currentPage at 1 while
the page count is 0. -/
def ClientInv (s : ClientState) : Prop :=
  computeFiltered s.filters s.allProducts = Except.ok s.filteredProducts ∧
  1 ≤ s.currentPage ∧
  s.currentPage ≤ max 1 (totalPages s.filteredProducts)

def bodyMug : ReqBody :=
  { name := some "Mug", description := some "Ceramic mug", price := some 9.99,
    category := some "home", stock := some 10, rating := none }

def emptyState : ServerState :=
  { store := [], nextId := 1, files := [], undeletable := [] }

example : createProduct 5 none bodyMug emptyState = (400, none, emptyState) := rfl

example : (seedDatabase 0 emptyState).store.length = 8 := rfl

def headphonesDoc : Doc :=
  { id := 1, name := "Wireless Headphones",
    description := "High-quality wireless headphones with noise cancellation.",
    price := 149.99, category := "electronics", image := "headphones.jpg",
    stock := 50, rating := 4.5, createdAt := 0 }

def tshirtDoc : Doc :=
  { id := 3, name := "Cotton T-Shirt",
    description := "Comfortable 100% cotton t-shirt available in multiple colors.",
    price := 19.99, category := "clothing", image := "tshirt.jpg",
    stock := 100, rating := 4.0, createdAt := 0 }

/-- C1: on a backend document whose category field is electronics, the
client category filter for electronics drops the document, because the
filter compares the selected value against the console field, which the
backend never sets; the claimed completeness direction fails. -/
theorem c1_category_filter_mismatch :
    headphonesDoc.category = "electronics" ∧
    computeFiltered
      { categoryValue := "electronics", sortValue := "", searchInput := "" }
      [Doc.toJs headphonesDoc] = Except.ok [] :=
  ⟨rfl, rfl⟩

/-- C2: two backend documents with prices 149.99 and 19.99 pass the
price ascending sort unchanged, because the comparator subtracts the
absent currentPrice fields, yielding NaN, which never swaps; the
resulting sequence is not ascending in price. -/
theorem c2_price_sort_mismatch :
    computeFiltered
      { categoryValue := "", sortValue := "price_asc", searchInput := "" }
      [Doc.toJs headphonesDoc, Doc.toJs tshirtDoc] =
      Except.ok [Doc.toJs headphonesDoc, Doc.toJs tshirtDoc] ∧
    ¬ headphonesDoc.price ≤ tshirtDoc.price := by
  constructor
  · rfl
  · show ¬ (149.99 : Rat) ≤ 19.99
    norm_num

/-- C8: searching for Head on a backend document whose name contains the
word headphones raises TypeError instead of matching, because the search
predicate lowercases the absent title field; the claimed name and
description matching never happens. -/
theorem c8_search_throws :
    jsIncludes (toLowerStr headphonesDoc.name) "head" = true ∧
    computeFiltered
      { categoryValue := "", sortValue := "", searchInput := "Head" }
      [Doc.toJs headphonesDoc] = Except.error "TypeError" :=
  ⟨rfl, rfl⟩

/-- C7: with the store healthy, getProduct answers 404 exactly when the
id resolves to no document and 200 with the document when it does, and
never 500; a raising store answers 500. -/
theorem c7_getProduct_status (dbError : Option String) (id : Nat) (s : ServerState) :
    (dbError = none → findById id s.store = none → getProduct dbError id s = (404, none)) ∧
    (dbError = none → ∀ p, findById id s.store = some p →
      getProduct dbError id s = (200, some p)) ∧
    (dbError = none → (getProduct dbError id s).1 ≠ 500) ∧
    (∀ e, dbError = some e → (getProduct dbError id s).1 = 500) := by
  refine ⟨?_, ?_, ?_, ?_⟩
  · intro hdb hfind
    subst hdb
    simp [getProduct, hfind]
  · intro hdb p hfind
    subst hdb
    simp [getProduct, hfind]
  · intro hdb
    subst hdb
    cases hfind : findById id s.store <;> simp [getProduct, hfind]
  · intro e hdb
    subst hdb
    simp [getProduct]

/-- C7 witness: a concrete store where the stocked id answers 200, a
fresh id answers 404 and a store failure answers 500. -/
theorem c7_getProduct_status_witness :
    getProduct none 1 { store := [headphonesDoc], nextId := 2, files := [], undeletable := [] } =
      (200, some headphonesDoc) ∧
    getProduct none 9 { store := [headphonesDoc], nextId := 2, files := [], undeletable := [] } =
      (404, none) ∧
    (getProduct (some "boom") 1
      { store := [headphonesDoc], nextId := 2, files := [], undeletable := [] }).1 = 500 :=
  ⟨(c7_getProduct_status none 1
      { store := [headphonesDoc], nextId := 2, files := [], undeletable := [] }).2.1 rfl
      headphonesDoc rfl,
   (c7_getProduct_status none 9
      { store := [headphonesDoc], nextId := 2, files := [], undeletable := [] }).1 rfl rfl,
   (c7_getProduct_status (some "boom") 1
      { store := [headphonesDoc], nextId := 2, files := [], undeletable := [] }).2.2.2 "boom" rfl⟩

/-- C3: without an attached file the create handler answers 400 and the
collection is untouched; with a file and the required fields present it
answers 201 with a document whose id is not any stored id and whose
createdAt is the insertion time, and the document is appended. -/
theorem c3_createProduct_spec (now : Nat) (fname : String) (b : ReqBody) (s : ServerState)
    (hreq : requiredOk b = true) (hfresh : ∀ d ∈ s.store, d.id ≠ s.nextId) :
    (createProduct now none b s = (400, none, s)) ∧
    ((createProduct now (some fname) b s).1 = 201 ∧
      ∃ d, (createProduct now (some fname) b s).2.1 = some d ∧
        d.createdAt = now ∧ (∀ e ∈ s.store, e.id ≠ d.id) ∧
        (createProduct now (some fname) b s).2.2.store = s.store ++ [d]) := by
  refine ⟨rfl, ?_, ?_⟩
  · simp [createProduct, hreq]
  · refine ⟨{ id := s.nextId,
              name := b.name.getD "",
              description := b.description.getD "",
              price := b.price.getD 0,
              category := b.category.getD "",
              image := fname,
              stock := b.stock.getD 0,
              rating := b.rating.getD 0,
              createdAt := now }, ?_, rfl, ?_, ?_⟩
    · simp [createProduct, hreq]
    · intro e he
      exact hfresh e he
    · simp [createProduct, hreq]

/-- C3 witness: on an empty store, creating the mug without a file
answers 400 and with a file answers 201. -/
theorem c3_createProduct_spec_witness :
    createProduct 5 none bodyMug emptyState = (400, none, emptyState) ∧
    (createProduct 5 (some "5-mug.png") bodyMug emptyState).1 = 201 :=
  ⟨(c3_createProduct_spec 5 "5-mug.png" bodyMug emptyState (by decide) (by simp [emptyState])).1,
   (c3_createProduct_spec 5 "5-mug.png" bodyMug emptyState (by decide) (by simp [emptyState])).2.1⟩

/-- C10: on an empty collection the seed inserts exactly the eight
sample documents, whose categories are electronics, clothing or home;
the uploads directory is untouched, so on a fresh deployment every
seeded image name references a file that was never uploaded, and the
product listing returns these never-created-through-POST documents; on a
non-empty collection the state is unchanged. -/
theorem c10_seed_spec (now : Nat) (s : ServerState) :
    (s.store = [] →
      listProducts (seedDatabase now s) = sampleProducts s.nextId now ∧
      (listProducts (seedDatabase now s)).length = 8 ∧
      (∀ d ∈ listProducts (seedDatabase now s),
        d.category = "electronics" ∨ d.category = "clothing" ∨ d.category = "home") ∧
      (seedDatabase now s).files = s.files ∧
      (s.files = [] → ∀ d ∈ listProducts (seedDatabase now s),
        d.image ∉ (seedDatabase now s).files)) ∧
    (s.store ≠ [] → seedDatabase now s = s) := by
  constructor
  · intro hempty
    have hseed : seedDatabase now s =
        { s with store := s.store ++ sampleProducts s.nextId now, nextId := s.nextId + 8 } := by
      simp [seedDatabase, hempty]
    refine ⟨?_, ?_, ?_, ?_, ?_⟩
    · simp [listProducts, hseed, hempty]
    · simp [listProducts, hseed, hempty, sampleProducts]
    · intro d hd
      simp [listProducts, hseed, hempty, sampleProducts] at hd
      rcases hd with rfl | rfl | rfl | rfl | rfl | rfl | rfl | rfl <;> simp
    · simp [hseed]
    · intro hfiles d hd
      simp [hseed, hfiles]
  · intro hne
    have hlen : 0 < s.store.length := List.length_pos.mpr hne
    simp [seedDatabase, hlen]

/-- C10 witness: a fresh deployment is seeded with the eight samples and
a non-empty store is left alone. -/
theorem c10_seed_spec_witness :
    listProducts (seedDatabase 7 emptyState) = sampleProducts 1 7 ∧
    seedDatabase 7 { store := [headphonesDoc], nextId := 2, files := [], undeletable := [] } =
      { store := [headphonesDoc], nextId := 2, files := [], undeletable := [] } :=
  ⟨((c10_seed_spec 7 emptyState).1 rfl).1,
   (c10_seed_spec 7
      { store := [headphonesDoc], nextId := 2, files := [], undeletable := [] }).2 (by simp)⟩

def c4doc : Doc :=
  { id := 1, name := "Mug", description := "A mug", price := 10,
    category := "home", image := "old.jpg", stock := 1, rating := 0, createdAt := 0 }

def noneBody : ReqBody :=
  { name := none, description := none, price := none,
    category := none, stock := none, rating := none }

def c4state : ServerState :=
  { store := [c4doc], nextId := 2, files := ["old.jpg"], undeletable := ["old.jpg"] }

def c4okState : ServerState :=
  { store := [c4doc], nextId := 2, files := [], undeletable := [] }

/-- C4 counterexample: on an existing product whose old image file is on
disk but whose unlink raises, supplying a new image makes the handler
answer 400 with no document and leaves the collection untouched; the
update is aborted by the deletion failure, against the claim. -/
theorem c4_unlink_failure_aborts :
    (updateProduct 1 (some "7-new.jpg") noneBody c4state).1 = 400 ∧
    (updateProduct 1 (some "7-new.jpg") noneBody c4state).2.1 = none ∧
    (updateProduct 1 (some "7-new.jpg") noneBody c4state).2.2.store = [c4doc] :=
  ⟨rfl, rfl, rfl⟩

/-- C4 (amended): the tolerated deletion failure is the old file being
absent from disk: then the update is still applied and the updated
document returned; but when the old image file exists and its unlink
raises, the handler answers 400 and the document update is not applied. -/
theorem c4_update_image_delete (id : Nat) (fname : String) (b : ReqBody)
    (s : ServerState) (old : Doc) (hfind : findById id s.store = some old) :
    (old.image ∉ fname :: s.files →
      (updateProduct id (some fname) b s).1 = 200 ∧
      (updateProduct id (some fname) b s).2.1 = some (applyUpdate old b (some fname))) ∧
    (old.image ≠ "" → old.image ∈ fname :: s.files → old.image ∈ s.undeletable →
      (updateProduct id (some fname) b s).1 = 400 ∧
      (updateProduct id (some fname) b s).2.1 = none ∧
      (updateProduct id (some fname) b s).2.2.store = s.store) := by
  constructor
  · intro habsent
    have hcond : ¬ (old.image ≠ "" ∧ old.image ∈ fname :: s.files) := by
      intro h
      exact habsent h.2
    simp only [updateProduct, hfind, findByIdAndUpdate]
    rw [if_neg hcond]
    simp [hfind, findByIdAndUpdate]
  · intro hne hmem hund
    have hcond : old.image ≠ "" ∧ old.image ∈ fname :: s.files := ⟨hne, hmem⟩
    simp only [updateProduct, hfind]
    rw [if_pos hcond, if_pos hund]
    exact ⟨rfl, rfl, rfl⟩

/-- C4 witness: with the old image file absent from disk the same update
succeeds with 200, and on the raising state it aborts with 400. -/
theorem c4_update_image_delete_witness :
    (updateProduct 1 (some "7-new.jpg") noneBody c4okState).1 = 200 ∧
    (updateProduct 1 (some "7-new.jpg") noneBody c4state).1 = 400 :=
  ⟨((c4_update_image_delete 1 "7-new.jpg" noneBody c4okState c4doc rfl).1 (by decide)).1,
   ((c4_update_image_delete 1 "7-new.jpg" noneBody c4state c4doc rfl).2 (by decide)
      (by decide) (by decide)).1⟩

theorem findById_id (id : Nat) (store : List Doc) (old : Doc)
    (h : findById id store = some old) : old.id = id := by
  have hp := List.find?_some h
  simpa using hp

theorem findById_map_replace (id : Nat) (store : List Doc) (old d : Doc)
    (h : findById id store = some old) (hd : d.id = id) :
    findById id (store.map (fun x => if x.id = id then d else x)) = some d := by
  induction store with
  | nil => simp [findById] at h
  | cons a t ih =>
    by_cases ha : a.id = id
    · simp [findById, ha, hd]
    · have ha2 : (a.id == id) = false := by simp [ha]
      have h2 : findById id t = some old := by
        simpa [findById, List.find?_cons, ha2] using h
      have ih2 := ih h2
      simpa [findById, List.find?_cons, ha, ha2] using ih2

theorem applyUpdate_id (d : Doc) (b : ReqBody) (img : Option String) :
    (applyUpdate d b img).id = d.id := rfl

theorem applyUpdate_createdAt (d : Doc) (b : ReqBody) (img : Option String) :
    (applyUpdate d b img).createdAt = d.createdAt := rfl

/-- C5: on an existing product, a bodyless-field update keeps every field
whose body entry is absent, both in the returned document and in the
stored one; and whatever the body and file, any returned document keeps
the id and createdAt of the stored document. -/
theorem c5_partial_update (id : Nat) (b : ReqBody) (s : ServerState) (old : Doc)
    (hfind : findById id s.store = some old) :
    ((updateProduct id none b s).1 = 200 ∧
      (updateProduct id none b s).2.1 = some (applyUpdate old b none) ∧
      findById id (updateProduct id none b s).2.2.store = some (applyUpdate old b none) ∧
      (b.name = none → (applyUpdate old b none).name = old.name) ∧
      (b.description = none → (applyUpdate old b none).description = old.description) ∧
      (b.price = none → (applyUpdate old b none).price = old.price) ∧
      (b.category = none → (applyUpdate old b none).category = old.category) ∧
      (b.stock = none → (applyUpdate old b none).stock = old.stock) ∧
      (b.rating = none → (applyUpdate old b none).rating = old.rating) ∧
      (applyUpdate old b none).image = old.image ∧
      (applyUpdate old b none).id = old.id ∧
      (applyUpdate old b none).createdAt = old.createdAt) ∧
    (∀ file d, (updateProduct id file b s).2.1 = some d →
      d.id = old.id ∧ d.createdAt = old.createdAt) := by
  have hid : old.id = id := findById_id id s.store old hfind
  constructor
  · refine ⟨?_, ?_, ?_, ?_, ?_, ?_, ?_, ?_, ?_, rfl, rfl, rfl⟩
    · simp [updateProduct, findByIdAndUpdate, hfind]
    · simp [updateProduct, findByIdAndUpdate, hfind]
    · have hrep := findById_map_replace id s.store old (applyUpdate old b none) hfind
        (by rw [applyUpdate_id]; exact hid)
      simp [updateProduct, findByIdAndUpdate, hfind]
      exact hrep
    · intro hb; simp [applyUpdate, hb]
    · intro hb; simp [applyUpdate, hb]
    · intro hb; simp [applyUpdate, hb]
    · intro hb; simp [applyUpdate, hb]
    · intro hb; simp [applyUpdate, hb]
    · intro hb; simp [applyUpdate, hb]
  · intro file d hd
    cases file with
    | none =>
      have : some (applyUpdate old b none) = some d := by
        simpa [updateProduct, findByIdAndUpdate, hfind] using hd
      have hdd : applyUpdate old b none = d := Option.some.inj this
      rw [← hdd]
      exact ⟨rfl, rfl⟩
    | some fname =>
      by_cases hcond : old.image ≠ "" ∧ old.image ∈ fname :: s.files
      · by_cases hund : old.image ∈ s.undeletable
        · exfalso
          have : (none : Option Doc) = some d := by
            simp only [updateProduct, hfind] at hd
            rw [if_pos hcond, if_pos hund] at hd
            simpa using hd.symm
          exact Option.noConfusion this
        · have hdd : d = applyUpdate old b (some fname) := by
            simp only [updateProduct, hfind] at hd
            rw [if_pos hcond, if_neg hund] at hd
            simpa [findByIdAndUpdate, hfind] using hd.symm
          rw [hdd]
          exact ⟨rfl, rfl⟩
      · have hdd : d = applyUpdate old b (some fname) := by
          simp only [updateProduct, hfind] at hd
          rw [if_neg hcond] at hd
          simpa [findByIdAndUpdate, hfind] using hd.symm
        rw [hdd]
        exact ⟨rfl, rfl⟩

def stockBody : ReqBody :=
  { name := none, description := none, price := none,
    category := none, stock := some 5, rating := none }

/-- C5 witness: updating only the stock of the stored mug answers 200
and keeps name, image, id and createdAt. -/
theorem c5_partial_update_witness :
    (updateProduct 1 none stockBody c4okState).1 = 200 ∧
    (applyUpdate c4doc stockBody none).name = c4doc.name ∧
    (applyUpdate c4doc stockBody none).createdAt = c4doc.createdAt :=
  ⟨((c5_partial_update 1 stockBody c4okState c4doc rfl).1).1,
   ((c5_partial_update 1 stockBody c4okState c4doc rfl).1).2.2.2.1 rfl,
   ((c5_partial_update 1 stockBody c4okState c4doc rfl).1).2.2.2.2.2.2.2.2.2.2.2⟩

theorem pageWindow_one (l : List JsProduct) : pageWindow l 1 = l.take 8 := by
  simp [pageWindow, productsPerPage]

theorem pageWindow_shift (l : List JsProduct) (i : Nat) :
    pageWindow l (i + 2) = pageWindow (l.drop 8) (i + 1) := by
  have h : (i + 2 - 1) * 8 = 8 + (i + 1 - 1) * 8 := by omega
  simp only [pageWindow, productsPerPage, List.drop_drop]
  rw [h]

theorem totalPages_cons_split (l : List JsProduct) (h : l ≠ []) :
    totalPages l = totalPages (l.drop 8) + 1 := by
  have hp : 0 < l.length := List.length_pos.mpr h
  simp only [totalPages, productsPerPage, List.length_drop]
  omega

theorem allPages_flatten_aux (n : Nat) :
    ∀ l : List JsProduct, l.length ≤ n → (allPages l).flatten = l := by
  induction n with
  | zero =>
    intro l hl
    have : l = [] := List.eq_nil_of_length_eq_zero (Nat.le_zero.mp hl)
    subst this
    rfl
  | succ n ih =>
    intro l hl
    cases hln : l with
    | nil => rfl
    | cons a t =>
      rw [← hln]
      have hne : l ≠ [] := by rw [hln]; exact List.cons_ne_nil a t
      have hsplit := totalPages_cons_split l hne
      have hdroplen : (l.drop 8).length ≤ n := by
        have : 0 < l.length := List.length_pos.mpr hne
        simp only [List.length_drop]
        omega
      calc (allPages l).flatten
          = ((List.range (totalPages (l.drop 8) + 1)).map
              (fun i => pageWindow l (i + 1))).flatten := by
            rw [allPages, hsplit]
        _ = pageWindow l 1 ++
              ((List.range (totalPages (l.drop 8))).map
                (fun i => pageWindow (l.drop 8) (i + 1))).flatten := by
            rw [List.range_succ_eq_map, List.map_cons, List.map_map, List.flatten_cons]
            have hcomp : (fun i => pageWindow l (i + 1)) ∘ Nat.succ =
                (fun i => pageWindow (l.drop 8) (i + 1)) := by
              funext i
              have hs := pageWindow_shift l i
              simp only [Function.comp]
              simpa [Nat.succ_eq_add_one, Nat.add_comm, Nat.add_assoc,
                Nat.add_left_comm] using hs
            rw [hcomp]
        _ = l.take 8 ++ (allPages (l.drop 8)).flatten := by rw [pageWindow_one, allPages]
        _ = l.take 8 ++ l.drop 8 := by rw [ih (l.drop 8) hdroplen]
        _ = l := List.take_append_drop 8 l

theorem pageWindow_full (l : List JsProduct) (p : Nat) (h1 : 1 ≤ p)
    (h2 : p < totalPages l) : (pageWindow l p).length = 8 := by
  simp only [pageWindow, productsPerPage, List.length_take, List.length_drop]
  simp only [totalPages, productsPerPage] at h2
  omega

/-- C6: concatenating the page windows for pages 1 up to the page count
reproduces the filtered sequence exactly, and every page strictly before
the last holds exactly productsPerPage elements. -/
theorem c6_pagination_partition (l : List JsProduct) :
    (allPages l).flatten = l ∧
    ∀ p, 1 ≤ p → p < totalPages l → (pageWindow l p).length = productsPerPage := by
  constructor
  · exact allPages_flatten_aux l.length l (Nat.le_refl _)
  · intro p h1 h2
    exact pageWindow_full l p h1 h2

def mkJs (k : Nat) : JsProduct :=
  { name := some "p", title := some "p", description := some "d",
    price := some k, currentPrice := some k, category := some "c",
    console := some "c", image := some "i" }

def jsList9 : List JsProduct :=
  (List.range 9).map mkJs

/-- C6 witness: on a nine element list the two pages concatenate back to
the list and the first page holds exactly eight elements. -/
theorem c6_pagination_partition_witness :
    (allPages jsList9).flatten = jsList9 ∧ (pageWindow jsList9 1).length = productsPerPage :=
  ⟨(c6_pagination_partition jsList9).1,
   (c6_pagination_partition jsList9).2 1 (by decide) (by decide)⟩

def cState0 : ClientState :=
  { filters := { categoryValue := "", sortValue := "", searchInput := "" },
    allProducts := [], filteredProducts := [], currentPage := 1 }

/-- C9 counterexample: from a consistent state with no products, any
filter change leaves currentPage at 1 while the page count of the empty
filtered sequence is 0, so currentPage exceeds the page count. -/
theorem c9_currentPage_exceeds_pagecount :
    ClientInv cState0 ∧
    ¬ ((clientStep cState0 (ClientEvent.filterChange
          { categoryValue := "x", sortValue := "", searchInput := "" })).currentPage ≤
        totalPages (clientStep cState0 (ClientEvent.filterChange
          { categoryValue := "x", sortValue := "", searchInput := "" })).filteredProducts) := by
  refine ⟨⟨rfl, by decide, by decide⟩, ?_⟩
  decide

/-- C9 (amended): from any state satisfying the pipeline invariant, a
filter change whose recompute succeeds sets the new filters, stores the
recomputed filteredProducts and resets currentPage to 1; a click on an
existing page number button keeps filteredProducts and only moves
currentPage; previous and next keep filteredProducts; and each of these
events preserves the invariant, in which currentPage is bounded by the
page count, except that it stays 1 when the filtered sequence is empty
and the page count is 0. -/
theorem c9_client_invariant (s : ClientState) (hInv : ClientInv s) :
    (∀ f l, computeFiltered f s.allProducts = Except.ok l →
      clientStep s (ClientEvent.filterChange f) =
        { s with filters := f, filteredProducts := l, currentPage := 1 } ∧
      ClientInv (clientStep s (ClientEvent.filterChange f))) ∧
    (∀ i, 1 ≤ i → i ≤ totalPages s.filteredProducts →
      (clientStep s (ClientEvent.pageClick i)).filteredProducts = s.filteredProducts ∧
      ClientInv (clientStep s (ClientEvent.pageClick i))) ∧
    ((clientStep s ClientEvent.prevClick).filteredProducts = s.filteredProducts ∧
      ClientInv (clientStep s ClientEvent.prevClick)) ∧
    ((clientStep s ClientEvent.nextClick).filteredProducts = s.filteredProducts ∧
      ClientInv (clientStep s ClientEvent.nextClick)) := by
  obtain ⟨hcf, hlo, hhi⟩ := hInv
  refine ⟨?_, ?_, ?_, ?_⟩
  · intro f l hok
    cases hf : filterProducts f.categoryValue (toLowerStr f.searchInput) s.allProducts with
    | error e =>
      exfalso
      rw [computeFiltered, hf] at hok
      exact Except.noConfusion hok
    | ok fl =>
      have hs : sortFiltered f.sortValue fl = Except.ok l := by
        rw [computeFiltered, hf] at hok
        exact hok
      have hstep : clientStep s (ClientEvent.filterChange f) =
          { s with filters := f, filteredProducts := l, currentPage := 1 } := by
        simp [clientStep, hf, hs]
      refine ⟨hstep, ?_⟩
      rw [hstep]
      refine ⟨?_, Nat.le_refl 1, ?_⟩
      · show computeFiltered f s.allProducts = Except.ok l
        exact hok
      · show 1 ≤ max 1 (totalPages l)
        exact Nat.le_max_left 1 (totalPages l)
  · intro i h1 h2
    refine ⟨rfl, hcf, h1, ?_⟩
    show i ≤ max 1 (totalPages s.filteredProducts)
    omega
  · by_cases hgt : 1 < s.currentPage
    · have hstep : clientStep s ClientEvent.prevClick =
          { s with currentPage := s.currentPage - 1 } := by
        simp [clientStep, hgt]
      rw [hstep]
      refine ⟨rfl, hcf, ?_, ?_⟩
      · show 1 ≤ s.currentPage - 1
        omega
      · show s.currentPage - 1 ≤ max 1 (totalPages s.filteredProducts)
        omega
    · have hstep : clientStep s ClientEvent.prevClick = s := by
        simp [clientStep, hgt]
      rw [hstep]
      exact ⟨rfl, hcf, hlo, hhi⟩
  · by_cases hlt : s.currentPage < totalPages s.filteredProducts
    · have hstep : clientStep s ClientEvent.nextClick =
          { s with currentPage := s.currentPage + 1 } := by
        simp [clientStep, hlt]
      rw [hstep]
      refine ⟨rfl, hcf, ?_, ?_⟩
      · show 1 ≤ s.currentPage + 1
        omega
      · show s.currentPage + 1 ≤ max 1 (totalPages s.filteredProducts)
        omega
    · have hstep : clientStep s ClientEvent.nextClick = s := by
        simp [clientStep, hlt]
      rw [hstep]
      exact ⟨rfl, hcf, hlo, hhi⟩

/-- C9 witness: from the consistent empty state, the filter change to a
concrete category keeps the invariant of the amended statement. -/
theorem c9_client_invariant_witness :
    ClientInv (clientStep cState0 (ClientEvent.filterChange
      { categoryValue := "x", sortValue := "", searchInput := "" })) :=
  (((c9_client_invariant cState0 ⟨rfl, by decide, by decide⟩).1
    { categoryValue := "x", sortValue := "", searchInput := "" } [] rfl)).2
